import Mathlib

/-!
Verification development for the "Tee & Seele" wellness backend
(`main.py`, `schemas.py`): a shallow embedding of the recommendation
core (needs profiler, tea scorer / ranker, orchestrator) and of the
consent-gated boundary endpoints, together with theorems settling the
specification's claims about them.
-/

namespace TeeSeele

/-- A dynamic payload value, modelling the Python `Any` values stored in an
interaction's `value` dict.  The profiler only ever compares payload values
with string literals or converts them with `int(...)`, so integers, strings,
booleans and `None` cover the behaviours the code distinguishes. -/
inductive Value where
  | vInt : Int → Value
  | vStr : String → Value
  | vBool : Bool → Value
  | vNull : Value
  deriving DecidableEq, Repr

/-- Reads a non-empty run of ASCII decimal digits into the accumulator;
`none` on the first non-digit character. -/
def digitsToNat (acc : Nat) : List Char → Option Nat
  | [] => some acc
  | c :: cs => if c.isDigit then digitsToNat (acc * 10 + (c.toNat - 48)) cs else none

/-- Strips leading and trailing whitespace from a character list. -/
def trimChars (cs : List Char) : List Char :=
  ((cs.dropWhile Char.isWhitespace).reverse.dropWhile Char.isWhitespace).reverse

/-- Python `int(s)` on a string: surrounding whitespace tolerated, optional
sign, then ASCII decimal digits; anything else raises `ValueError` —
modelled as `none`. -/
def pyIntOfString (s : String) : Option Int :=
  match trimChars s.toList with
  | [] => none
  | '-' :: cs =>
    match cs with
    | [] => none
    | _ => (digitsToNat 0 cs).map (fun n => -(n : Int))
  | '+' :: cs =>
    match cs with
    | [] => none
    | _ => (digitsToNat 0 cs).map Int.ofNat
  | cs => (digitsToNat 0 cs).map Int.ofNat

/-- Python `int(x)` on a payload value: identity on ints, `True`/`False`
become `1`/`0`, a string is parsed as a signed decimal integer, and anything
else raises — modelled as `none`. -/
def pyInt : Value → Option Int
  | Value.vInt n => some n
  | Value.vBool b => some (if b then 1 else 0)
  | Value.vStr s => pyIntOfString s
  | Value.vNull => none

/-- Python `dict.get(k)`: the value at the first matching key, if any. -/
def dictGet (m : List (String × Value)) (k : String) : Option Value :=
  (m.find? (fun kv => kv.1 == k)).map (fun kv => kv.2)

/-- `schemas.Interaction`: one recorded interaction event. -/
structure Interaction where
  journey_id : String
  type : String
  value : List (String × Value)
  deriving DecidableEq, Repr

/-- `schemas.Journey`: a user session; `consent` gates event recording. -/
structure Journey where
  consent : Bool
  guide_name : Option String := some "Auri"
  device : Option String := none
  deriving DecidableEq, Repr

/-- `schemas.Tea`: one catalog item. -/
structure Tea where
  key : String
  name : String
  tags : List String
  description : String
  benefits : List String
  contraindications : List String
  interactions : List String
  preparation : String
  deriving DecidableEq, Repr

/-- The needs profile built by `analyze` (`main.py` lines 68–73): a dict with
exactly the four keys `calm_need`, `focus_need`, `uplift_need`, `sleep_need`,
in that insertion order, each starting at 0. -/
structure Profile where
  calm_need : Int
  focus_need : Int
  uplift_need : Int
  sleep_need : Int
  deriving DecidableEq, Repr

/-- `schemas.Recommendation`. -/
structure Recommendation where
  journey_id : String
  profile : Profile
  teas : List String
  deriving DecidableEq, Repr

/-- The initial all-zero profile dict. -/
def initProfile : Profile := ⟨0, 0, 0, 0⟩

/-- `profile.items()` in dict insertion order. -/
def profileItems (p : Profile) : List (String × Int) :=
  [("calm_need", p.calm_need), ("focus_need", p.focus_need),
   ("uplift_need", p.uplift_need), ("sleep_need", p.sleep_need)]

/-- One iteration of the profiling loop (`main.py` lines 75–102) on one
interaction.  `none` models an uncaught exception: the only raising
operation in the loop is `int(val.get("count", 1))`. -/
def profileStep (p : Profile) (it : Interaction) : Option Profile :=
  if it.type = "metaphor_pick" then
    let metaphor := dictGet it.value "metaphor"
    if metaphor = some (Value.vStr "clouds") then
      some { p with calm_need := p.calm_need + 2 }
    else if metaphor = some (Value.vStr "sparks") then
      some { p with uplift_need := p.uplift_need + 2 }
    else if metaphor = some (Value.vStr "roots") then
      some { p with focus_need := p.focus_need + 2 }
    else some p
  else if it.type = "spark_collect" then
    (pyInt ((dictGet it.value "count").getD (Value.vInt 1))).map
      (fun n => { p with uplift_need := p.uplift_need + n })
  else if it.type = "maze_complete" then
    some { p with focus_need := p.focus_need + 1 }
  else if it.type = "breath_pace" then
    let pace := (dictGet it.value "pace").getD (Value.vStr "slow")
    if pace = Value.vStr "slow" then
      some { p with sleep_need := p.sleep_need + 1 }
    else
      some { p with calm_need := p.calm_need + 1 }
  else if it.type = "scene_choice" then
    let scene := dictGet it.value "scene"
    if scene = some (Value.vStr "night") then
      some { p with sleep_need := p.sleep_need + 1 }
    else if scene = some (Value.vStr "meadow") then
      some { p with calm_need := p.calm_need + 1 }
    else some p
  else some p

/-- The whole profiling loop, threading the profile through the events. -/
def runProfiler (p : Profile) : List Interaction → Option Profile
  | [] => some p
  | it :: rest =>
    match profileStep p it with
    | none => none
    | some p' => runProfiler p' rest

/-- The Needs Profiler: events of one journey to a needs profile, starting
from the all-zero dict. -/
def needsProfile (events : List Interaction) : Option Profile :=
  runProfiler initProfile events

/-- Stable insertion for a descending sort: `x` goes in front of the first
element whose key is not larger than `x`'s. -/
def insertDesc (key : α → Int) (x : α) : List α → List α
  | [] => [x]
  | y :: l => if key y ≤ key x then x :: y :: l else y :: insertDesc key x l

/-- Python's `sorted(l, key=key, reverse=True)`: a stable sort into
descending key order, rendered as an insertion sort. -/
def pySortDesc (key : α → Int) (l : List α) : List α :=
  l.foldr (insertDesc key) []

/-- `ranked = sorted(profile.items(), key=lambda x: x[1], reverse=True)`
(`main.py` line 105). -/
def rankedNeeds (p : Profile) : List (String × Int) :=
  pySortDesc Prod.snd (profileItems p)

/-- `any(tag in tea.tags for tag in group)`. -/
def tagAny (tags : List String) (group : List String) : Bool :=
  group.any (fun tag => tags.contains tag)

/-- The four `+3` primary-need checks of `score_tea`
(`main.py` lines 113–121). -/
def primaryBonus (top_need : Option String) (tea : Tea) : Int :=
  (if top_need = some "calm_need" ∧ tagAny tea.tags ["calming", "soothing", "anxiety"] then 3 else 0)
  + (if top_need = some "sleep_need" ∧ tagAny tea.tags ["sleep", "night", "sedative"] then 3 else 0)
  + (if top_need = some "focus_need" ∧ tagAny tea.tags ["focus", "grounding", "clarity"] then 3 else 0)
  + (if top_need = some "uplift_need" ∧ tagAny tea.tags ["uplift", "mood", "energize"] then 3 else 0)

/-- The `+1` secondary-need checks of one loop iteration of `score_tea`
(`main.py` lines 123–131). -/
def secondaryBonus (tea : Tea) (nv : String × Int) : Int :=
  (if nv.1 = "calm_need" ∧ tea.tags.contains "calming" then 1 else 0)
  + (if nv.1 = "sleep_need" ∧ tea.tags.contains "sleep" then 1 else 0)
  + (if nv.1 = "focus_need" ∧ tea.tags.contains "focus" then 1 else 0)
  + (if nv.1 = "uplift_need" ∧ tea.tags.contains "uplift" then 1 else 0)

/-- `score_tea` (`main.py` lines 111–132): `+3` for the top-ranked need's
tag group, then `+1` per match over `ranked[1:3]`. -/
def score_tea (ranked : List (String × Int)) (tea : Tea) : Int :=
  let top_need : Option String := ranked.head?.map Prod.fst
  primaryBonus top_need tea
    + ((ranked.drop 1).take 2).foldl (fun s nv => s + secondaryBonus tea nv) 0

/-- `ranked_teas = sorted(teas, key=score_tea, reverse=True)`
(`main.py` line 134). -/
def rankTeas (ranked : List (String × Int)) (teas : List Tea) : List Tea :=
  pySortDesc (score_tea ranked) teas

/-- `[t.key for t in ranked_teas[:3]] if ranked_teas else []`
(`main.py` line 135). -/
def topTeaKeys (ranked : List (String × Int)) (teas : List Tea) : List String :=
  let ranked_teas := rankTeas ranked teas
  if ranked_teas.isEmpty then [] else (ranked_teas.take 3).map Tea.key

/-- Modelled from the spec: the document store (`database.py` is not part of
the sources; §6 specifies `create(collection, record) -> id` and
`query(collection, filter, limit?) -> list`, exact-match filters, empty list
when nothing matches).  One field per collection the endpoints touch;
`create` appends, `query` filters; Mongo's generated ids are supplied by the
caller where one is observable. -/
structure Store where
  journeys : List (String × Journey)
  interactions : List Interaction
  teas : List Tea
  recommendations : List Recommendation
  deriving DecidableEq, Repr

/-- The store with every collection empty. -/
def emptyStore : Store := ⟨[], [], [], []⟩

/-- `POST /api/journey` (`main.py` lines 43–48): reject unless consent was
given, else persist the journey and return its id. -/
def start_journey (s : Store) (newId : String) (journey : Journey) :
    Except String (Store × String) :=
  if !journey.consent then
    Except.error "Consent required to proceed."
  else
    Except.ok ({ s with journeys := s.journeys ++ [(newId, journey)] }, newId)

/-- `POST /api/interaction` (`main.py` lines 51–56): reject an empty
`journey_id`, else persist the interaction (its generated id is not
observable in any claim, so it is not returned). -/
def record_interaction (s : Store) (interaction : Interaction) :
    Except String Store :=
  if interaction.journey_id = "" then
    Except.error "journey_id required"
  else
    Except.ok { s with interactions := s.interactions ++ [interaction] }

/-- `POST /api/analyze` (`main.py` lines 62–140): pull the journey's
interactions, profile them, rank the catalog, persist and return the
recommendation.  `Except.error` models an uncaught exception escaping the
handler; the only raising operation is `int()` inside the profiling loop. -/
def analyze (s : Store) (journey_id : String) :
    Except String (Store × Recommendation) :=
  let interactions := s.interactions.filter (fun it => it.journey_id == journey_id)
  match needsProfile interactions with
  | none => Except.error "invalid literal for int()"
  | some profile =>
    let ranked := rankedNeeds profile
    let tea_keys := topTeaKeys ranked s.teas
    let out : Recommendation := ⟨journey_id, profile, tea_keys⟩
    Except.ok ({ s with recommendations := s.recommendations ++ [out] }, out)

/-- The `chamomile` seed tea (`main.py` lines 150–159). -/
def chamomile : Tea :=
  ⟨"chamomile", "Kamille", ["calming", "sleep"],
   "Sanfte Blüten, die Ruhe fördern",
   ["Beruhigend", "Fördert Schlaf"],
   ["Allergie gegen Korbblütler"], [],
   "2 TL auf 250ml, 8-10 Min. ziehen lassen"⟩

/-- The `peppermint` seed tea (`main.py` lines 160–169). -/
def peppermint : Tea :=
  ⟨"peppermint", "Pfefferminze", ["clarity", "uplift"],
   "Frische Blätter, die klären und beleben",
   ["Erfrischend", "Konzentrationsfördernd"],
   ["Gallenwegsstörungen (Rücksprache)"], [],
   "1-2 TL auf 250ml, 5-7 Min."⟩

/-- The `lavender` seed tea (`main.py` lines 170–179). -/
def lavender : Tea :=
  ⟨"lavender", "Lavendel", ["calming", "sleep"],
   "Blüten mit sanftem Duft, die entspannen",
   ["Entspannend", "Schlaffördernd"],
   ["Schwangerschaft: Rücksprache"], [],
   "1 TL auf 250ml, 5-7 Min."⟩

/-- The `lemonbalm` seed tea (`main.py` lines 180–189). -/
def lemonbalm : Tea :=
  ⟨"lemonbalm", "Zitronenmelisse", ["calming", "uplift"],
   "Zarte Blätter, die beruhigen und aufhellen",
   ["Ausgleichend", "Stimmungsaufhellend"],
   ["Schilddrüse: Rücksprache"], [],
   "1-2 TL auf 250ml, 5-8 Min."⟩

/-- The seed catalog in seeding (= retrieval) order (`main.py` lines 149–190). -/
def seedCatalog : List Tea := [chamomile, peppermint, lavender, lemonbalm]

/-! ### General facts about the stable descending sort -/

theorem insertDesc_perm (key : α → Int) (x : α) :
    ∀ l : List α, (insertDesc key x l).Perm (x :: l)
  | [] => List.Perm.refl _
  | y :: l => by
    unfold insertDesc
    split
    · exact List.Perm.refl _
    · exact ((insertDesc_perm key x l).cons y).trans (List.Perm.swap x y l)

theorem pySortDesc_perm (key : α → Int) : ∀ l : List α, (pySortDesc key l).Perm l
  | [] => List.Perm.refl _
  | a :: l => (insertDesc_perm key a (pySortDesc key l)).trans ((pySortDesc_perm key l).cons a)

theorem insertDesc_pairwise (key : α → Int) (x : α) :
    ∀ l : List α, l.Pairwise (fun a b => key b ≤ key a) →
      (insertDesc key x l).Pairwise (fun a b => key b ≤ key a)
  | [], _ => by simp [insertDesc]
  | y :: l, h => by
    rw [List.pairwise_cons] at h
    obtain ⟨hy, hl⟩ := h
    unfold insertDesc
    split
    next hle =>
      refine List.pairwise_cons.mpr ⟨?_, List.pairwise_cons.mpr ⟨hy, hl⟩⟩
      intro z hz
      rcases List.mem_cons.mp hz with rfl | hz'
      · exact hle
      · exact le_trans (hy z hz') hle
    next hgt =>
      refine List.pairwise_cons.mpr ⟨?_, insertDesc_pairwise key x l hl⟩
      intro z hz
      rcases List.mem_cons.mp ((insertDesc_perm key x l).mem_iff.mp hz) with rfl | hz'
      · omega
      · exact hy z hz'

theorem pySortDesc_pairwise (key : α → Int) :
    ∀ l : List α, (pySortDesc key l).Pairwise (fun a b => key b ≤ key a)
  | [] => List.Pairwise.nil
  | a :: l => insertDesc_pairwise key a (pySortDesc key l) (pySortDesc_pairwise key l)

theorem insertDesc_filter (key : α → Int) (x : α) (v : Int) :
    ∀ l : List α, (insertDesc key x l).filter (fun y => key y == v)
      = if key x = v then x :: l.filter (fun y => key y == v)
        else l.filter (fun y => key y == v)
  | [] => by
    by_cases h : key x = v <;> simp [insertDesc, h]
  | y :: l => by
    unfold insertDesc
    split
    next hle =>
      by_cases h : key x = v <;> simp [List.filter_cons, h]
    next hgt =>
      rw [List.filter_cons, List.filter_cons, insertDesc_filter key x v l]
      by_cases hx : key x = v
      · have hy : ¬(key y = v) := by omega
        simp [hx, hy]
      · simp [hx]

theorem pySortDesc_filter (key : α → Int) (v : Int) :
    ∀ l : List α, (pySortDesc key l).filter (fun y => key y == v)
      = l.filter (fun y => key y == v)
  | [] => rfl
  | a :: l => by
    rw [show pySortDesc key (a :: l) = insertDesc key a (pySortDesc key l) from rfl,
        insertDesc_filter key a v (pySortDesc key l), pySortDesc_filter key v l,
        List.filter_cons]
    by_cases ha : key a = v <;> simp [ha]

/-! ### General facts about the profiler -/

/-- Pointwise addition of profiles (the per-event deltas form a commutative
monoid, which is what makes the profiler order-independent). -/
def Profile.add (p q : Profile) : Profile :=
  ⟨p.calm_need + q.calm_need, p.focus_need + q.focus_need,
   p.uplift_need + q.uplift_need, p.sleep_need + q.sleep_need⟩

theorem Profile.add_right_comm (p a b : Profile) :
    (p.add a).add b = (p.add b).add a := by
  rcases p with ⟨pc, pf, pu, ps⟩
  rcases a with ⟨ac, af, au, as⟩
  rcases b with ⟨bc, bf, bu, bs⟩
  simp only [Profile.add, Profile.mk.injEq]
  omega

/-- A profiling step from any profile is the step from the all-zero profile
(the event's delta) added on. -/
theorem profileStep_shift (p : Profile) (it : Interaction) :
    profileStep p it = (profileStep initProfile it).map (fun d => p.add d) := by
  rcases p with ⟨c, f, u, sl⟩
  unfold profileStep
  dsimp only
  split_ifs <;>
    (cases hp : pyInt ((dictGet it.value "count").getD (Value.vInt 1)) <;>
       simp [hp, Profile.add, initProfile])

theorem profileStep_comm (p : Profile) (x y : Interaction) :
    (profileStep p x).bind (fun q => profileStep q y)
      = (profileStep p y).bind (fun q => profileStep q x) := by
  cases hx : profileStep initProfile x with
  | none =>
    have h1 : profileStep p x = none := by rw [profileStep_shift p x, hx]; rfl
    cases hy : profileStep initProfile y with
    | none =>
      have h2 : profileStep p y = none := by rw [profileStep_shift p y, hy]; rfl
      simp [h1, h2]
    | some b =>
      have h2 : profileStep p y = some (p.add b) := by rw [profileStep_shift p y, hy]; rfl
      have h3 : profileStep (p.add b) x = none := by
        rw [profileStep_shift (p.add b) x, hx]; rfl
      simp [h1, h2, h3]
  | some a =>
    have h1 : profileStep p x = some (p.add a) := by rw [profileStep_shift p x, hx]; rfl
    cases hy : profileStep initProfile y with
    | none =>
      have h2 : profileStep p y = none := by rw [profileStep_shift p y, hy]; rfl
      have h3 : profileStep (p.add a) y = none := by
        rw [profileStep_shift (p.add a) y, hy]; rfl
      simp [h1, h2, h3]
    | some b =>
      have h2 : profileStep p y = some (p.add b) := by rw [profileStep_shift p y, hy]; rfl
      have h3 : profileStep (p.add a) y = some ((p.add a).add b) := by
        rw [profileStep_shift (p.add a) y, hy]; rfl
      have h4 : profileStep (p.add b) x = some ((p.add b).add a) := by
        rw [profileStep_shift (p.add b) x, hx]; rfl
      simp [h1, h2, h3, h4, Profile.add_right_comm]

theorem runProfiler_cons (p : Profile) (it : Interaction) (l : List Interaction) :
    runProfiler p (it :: l) = (profileStep p it).bind (fun q => runProfiler q l) := by
  cases h : profileStep p it <;> simp [runProfiler, h]

theorem runProfiler_perm {l₁ l₂ : List Interaction} (h : l₁.Perm l₂) :
    ∀ p : Profile, runProfiler p l₁ = runProfiler p l₂ := by
  induction h with
  | nil => intro p; rfl
  | cons x _ ih =>
    intro p
    rw [runProfiler_cons, runProfiler_cons]
    cases profileStep p x <;> simp [ih]
  | swap x y l =>
    intro p
    calc runProfiler p (y :: x :: l)
        = ((profileStep p y).bind (fun q => profileStep q x)).bind
            (fun r => runProfiler r l) := by
          rw [runProfiler_cons]
          cases profileStep p y <;> simp [runProfiler_cons]
      _ = ((profileStep p x).bind (fun q => profileStep q y)).bind
            (fun r => runProfiler r l) := by rw [profileStep_comm]
      _ = runProfiler p (x :: y :: l) := by
          rw [runProfiler_cons]
          cases profileStep p x <;> simp [runProfiler_cons]
  | trans _ _ ih₁ ih₂ => intro p; rw [ih₁, ih₂]

/-- Every event's delta leaves `calm_need`, `focus_need` and `sleep_need`
non-negative (only the `spark_collect` delta to `uplift_need` can be
negative). -/
theorem profileStep_init_nonneg (it : Interaction) (d : Profile)
    (h : profileStep initProfile it = some d) :
    0 ≤ d.calm_need ∧ 0 ≤ d.focus_need ∧ 0 ≤ d.sleep_need := by
  unfold profileStep at h
  dsimp only at h
  split_ifs at h <;>
    first
      | (rcases Option.map_eq_some'.mp h with ⟨n, -, rfl⟩; simp [initProfile])
      | (injection h with h; subst h; simp [initProfile])

theorem profileStep_mono (p : Profile) (it : Interaction) (p' : Profile)
    (h : profileStep p it = some p') :
    p.calm_need ≤ p'.calm_need ∧ p.focus_need ≤ p'.focus_need ∧
      p.sleep_need ≤ p'.sleep_need := by
  rw [profileStep_shift p it] at h
  cases hd : profileStep initProfile it with
  | none => rw [hd] at h; cases h
  | some d =>
    rw [hd] at h
    injection h with h
    subst h
    have := profileStep_init_nonneg it d hd
    rcases p with ⟨c, f, u, sl⟩
    rcases d with ⟨dc, df, du, ds⟩
    simp only [Profile.add] at *
    omega

theorem runProfiler_mono :
    ∀ (l : List Interaction) (p p' : Profile), runProfiler p l = some p' →
      p.calm_need ≤ p'.calm_need ∧ p.focus_need ≤ p'.focus_need ∧
        p.sleep_need ≤ p'.sleep_need
  | [], p, p', h => by
    cases h
    exact ⟨le_refl _, le_refl _, le_refl _⟩
  | it :: l, p, p', h => by
    rw [runProfiler_cons] at h
    cases hs : profileStep p it with
    | none => rw [hs] at h; cases h
    | some q =>
      rw [hs] at h
      have h1 := profileStep_mono p it q hs
      have h2 := runProfiler_mono l q p' h
      exact ⟨le_trans h1.1 h2.1, le_trans h1.2.1 h2.2.1, le_trans h1.2.2 h2.2.2⟩

/-! ### General facts about the scorer -/

theorem secondaryBonus_bounds (tea : Tea) (nv : String × Int) :
    0 ≤ secondaryBonus tea nv ∧ secondaryBonus tea nv ≤ 1 := by
  unfold secondaryBonus
  split_ifs <;> first | omega | simp_all

theorem primaryBonus_bounds (top_need : Option String) (tea : Tea) :
    0 ≤ primaryBonus top_need tea ∧ primaryBonus top_need tea ≤ 3 := by
  unfold primaryBonus
  split_ifs <;> first | omega | simp_all

theorem foldlSecondary_bounds (tea : Tea) :
    ∀ l : List (String × Int), l.length ≤ 2 →
      0 ≤ l.foldl (fun s nv => s + secondaryBonus tea nv) 0 ∧
        l.foldl (fun s nv => s + secondaryBonus tea nv) 0 ≤ 2 := by
  intro l hl
  match l with
  | [] => simp
  | [a] =>
    have ha := secondaryBonus_bounds tea a
    simp only [List.foldl]
    omega
  | [a, b] =>
    have ha := secondaryBonus_bounds tea a
    have hb := secondaryBonus_bounds tea b
    simp only [List.foldl]
    omega
  | _ :: _ :: _ :: _ => simp at hl

theorem score_tea_bounds (ranked : List (String × Int)) (tea : Tea) :
    0 ≤ score_tea ranked tea ∧ score_tea ranked tea ≤ 5 := by
  unfold score_tea
  dsimp only
  have hp := primaryBonus_bounds (ranked.head?.map Prod.fst) tea
  have hf := foldlSecondary_bounds tea ((ranked.drop 1).take 2)
    (le_trans (List.length_take_le 2 _) (le_refl 2))
  omega

theorem score_tea_take3 (ranked : List (String × Int)) (tea : Tea) :
    score_tea ranked tea = score_tea (ranked.take 3) tea := by
  have h1 : (ranked.take 3).head? = ranked.head? := by cases ranked <;> rfl
  have h2 : ((ranked.take 3).drop 1).take 2 = (ranked.drop 1).take 2 := by
    rw [List.drop_take, List.take_take]
    norm_num
  unfold score_tea
  rw [h1, h2]

theorem rankTeas_length (ranked : List (String × Int)) (teas : List Tea) :
    (rankTeas ranked teas).length = teas.length :=
  (pySortDesc_perm (score_tea ranked) teas).length_eq

/-- All journeys recorded in the store carry consent: what "no Interaction
Event is ever associated with a journey lacking consent" comes down to,
given that journeys are only ever created through `start_journey`. -/
def consentInv (s : Store) : Prop := ∀ e ∈ s.journeys, e.2.consent = true

/-! ### Claims -/

/-- Claim C1, amended: a `spark_collect` event with no `count` field adds
exactly 1 to the uplift accumulator, and a numeric `count` is converted by
`int()`; but a `spark_collect` event whose `count` field is non-numeric
makes the profiling step raise (`int()` fails) instead of being tolerated
as the default 1. -/
theorem spark_count_default_and_failure :
    (∀ (p : Profile) (it : Interaction),
        it.type = "spark_collect" → dictGet it.value "count" = none →
        profileStep p it = some { p with uplift_need := p.uplift_need + 1 })
    ∧ (∀ (p : Profile) (it : Interaction) (v : Value),
        it.type = "spark_collect" → dictGet it.value "count" = some v →
        pyInt v = none → profileStep p it = none) := by
  constructor
  · intro p it ht hc
    simp [profileStep, ht, hc, pyInt]
  · intro p it v ht hc hv
    simp [profileStep, ht, hc, hv]

/-- Witness for Claim C1's theorem at concrete inputs: a `spark_collect`
with empty payload bumps uplift by 1, one with a `None` count fails. -/
theorem spark_count_default_and_failure_w :
    profileStep initProfile ⟨"j", "spark_collect", []⟩
        = some { initProfile with uplift_need := initProfile.uplift_need + 1 }
    ∧ profileStep initProfile ⟨"j", "spark_collect", [("count", Value.vNull)]⟩ = none :=
  ⟨spark_count_default_and_failure.1 initProfile ⟨"j", "spark_collect", []⟩ rfl rfl,
   spark_count_default_and_failure.2 initProfile
     ⟨"j", "spark_collect", [("count", Value.vNull)]⟩ Value.vNull rfl rfl rfl⟩

/-- Counterexample to Claim C1 as stated: a `spark_collect` whose `count`
is the non-numeric string "abc" does not add 1 to uplift — the profiler
fails outright instead of treating it as the default. -/
theorem spark_count_nonnumeric_counterexample :
    needsProfile [⟨"j", "spark_collect", [("count", Value.vStr "abc")]⟩] = none
    ∧ needsProfile [⟨"j", "spark_collect", [("count", Value.vStr "abc")]⟩]
        ≠ some { initProfile with uplift_need := initProfile.uplift_need + 1 } := by
  decide

/-- Claim C2, amended: the needs vector has exactly the four named fields
in the fixed order, initialized to 0, and `calm_need`, `focus_need` and
`sleep_need` are non-negative and never decremented by any event; but
`uplift_need` is incremented by the raw `spark_collect` count, which may be
negative, so it can be decremented and driven below zero. -/
theorem profile_fields_names_and_mono :
    (∀ p : Profile, (profileItems p).map Prod.fst
        = ["calm_need", "focus_need", "uplift_need", "sleep_need"])
    ∧ (∀ (events : List Interaction) (p' : Profile), needsProfile events = some p' →
        0 ≤ p'.calm_need ∧ 0 ≤ p'.focus_need ∧ 0 ≤ p'.sleep_need)
    ∧ (∀ (p : Profile) (it : Interaction) (p' : Profile), profileStep p it = some p' →
        p.calm_need ≤ p'.calm_need ∧ p.focus_need ≤ p'.focus_need ∧
          p.sleep_need ≤ p'.sleep_need) := by
  refine ⟨fun p => rfl, ?_, profileStep_mono⟩
  intro evs p' h
  simpa [initProfile] using runProfiler_mono evs initProfile p' h

/-- Witness for Claim C2's theorem at concrete inputs. -/
theorem profile_fields_names_and_mono_w :
    (0 ≤ initProfile.calm_need ∧ 0 ≤ initProfile.focus_need ∧
       0 ≤ initProfile.sleep_need)
    ∧ (initProfile.calm_need ≤ (⟨0, 1, 0, 0⟩ : Profile).calm_need
        ∧ initProfile.focus_need ≤ (⟨0, 1, 0, 0⟩ : Profile).focus_need
        ∧ initProfile.sleep_need ≤ (⟨0, 1, 0, 0⟩ : Profile).sleep_need) :=
  ⟨profile_fields_names_and_mono.2.1 [] initProfile rfl,
   profile_fields_names_and_mono.2.2 initProfile ⟨"j", "maze_complete", []⟩
     ⟨0, 1, 0, 0⟩ (by decide)⟩

/-- Counterexample to Claim C2 as stated: a `spark_collect` with count −5
drives `uplift_need` to −5, below both zero and its initial value, so the
fields are neither all non-negative nor only ever incremented. -/
theorem negative_count_decrements_uplift :
    needsProfile [⟨"j", "spark_collect", [("count", Value.vInt (-5))]⟩]
        = some ⟨0, 0, -5, 0⟩
    ∧ (⟨0, 0, -5, 0⟩ : Profile).uplift_need < 0
    ∧ (⟨0, 0, -5, 0⟩ : Profile).uplift_need < initProfile.uplift_need := by
  decide

/-- Claim C3, amended: `analyze` performs no journey-identifier validation
at all — it reports an error exactly when profiling the journey's stored
events fails (a non-numeric `spark_collect` count), regardless of the
identifier; and for every identifier, the empty string included, whose
journey has zero stored events it returns a Recommendation whose profile is
all zeros rather than failing. -/
theorem analyze_no_journey_validation :
    ∀ (s : Store) (journey_id : String),
      ((∃ e, analyze s journey_id = Except.error e)
          ↔ needsProfile (s.interactions.filter
              (fun it => it.journey_id == journey_id)) = none)
      ∧ (s.interactions.filter (fun it => it.journey_id == journey_id) = [] →
          ∃ (s' : Store) (out : Recommendation),
            analyze s journey_id = Except.ok (s', out)
              ∧ out.profile = initProfile ∧ out.journey_id = journey_id) := by
  intro s jid
  constructor
  · unfold analyze
    cases h : needsProfile (s.interactions.filter (fun it => it.journey_id == jid)) with
    | none => simp [h]
    | some p => simp [h]
  · intro hf
    unfold analyze
    rw [hf]
    exact ⟨_, _, rfl, rfl, rfl⟩

/-- Witness for Claim C3's theorem: with no stored events, `analyze`
succeeds even on the empty journey identifier, with an all-zero profile. -/
theorem analyze_no_journey_validation_w :
    ∃ (s' : Store) (out : Recommendation),
      analyze emptyStore "" = Except.ok (s', out)
        ∧ out.profile = initProfile ∧ out.journey_id = "" :=
  (analyze_no_journey_validation emptyStore "").2 rfl

/-- Counterexample to Claim C3 as stated: `analyze` reports an error for
the non-empty journey identifier "j", whose single stored event carries a
non-numeric `spark_collect` count — so errors are not confined to
empty/missing identifiers. -/
theorem analyze_fails_on_nonempty_journey :
    (∃ e, analyze ⟨[], [⟨"j", "spark_collect", [("count", Value.vStr "x")]⟩], [], []⟩ "j"
        = Except.error e)
    ∧ "j" ≠ "" :=
  ⟨⟨"invalid literal for int()", rfl⟩, by decide⟩

/-- Claim C4: ranking the four needs by value descending is stable — for
every value `v`, the needs holding `v` appear in the ranking in the fixed
dict order calm, focus, uplift, sleep — the ranking is sorted by descending
value, and the empty event sequence yields the all-zero vector whose
primary (top-ranked) need is `calm_need`. -/
theorem need_ranking_stable_and_empty :
    ∀ (p : Profile) (v : Int),
      (rankedNeeds p).filter (fun nv => nv.2 == v)
          = (profileItems p).filter (fun nv => nv.2 == v)
      ∧ (rankedNeeds p).Pairwise (fun a b => b.2 ≤ a.2)
      ∧ needsProfile [] = some ⟨0, 0, 0, 0⟩
      ∧ (rankedNeeds ⟨0, 0, 0, 0⟩).head? = some ("calm_need", 0) :=
  fun p v =>
    ⟨pySortDesc_filter Prod.snd v (profileItems p),
     pySortDesc_pairwise Prod.snd (profileItems p), rfl, by decide⟩

/-- Claim C5: the tea ranker is a stable descending sort on the score: the
output is a permutation of the catalog, sorted by score descending, and for
every score value the equal-score teas appear in the output exactly in
their catalog retrieval order — so permuting equal-score items in the input
permutes them identically in the output, and preserving input order
preserves output order. -/
theorem tea_ranking_stable :
    ∀ (p : Profile) (teas : List Tea) (sc : Int),
      (rankTeas (rankedNeeds p) teas).filter
          (fun t => score_tea (rankedNeeds p) t == sc)
        = teas.filter (fun t => score_tea (rankedNeeds p) t == sc)
      ∧ (rankTeas (rankedNeeds p) teas).Pairwise
          (fun a b => score_tea (rankedNeeds p) b ≤ score_tea (rankedNeeds p) a)
      ∧ (rankTeas (rankedNeeds p) teas).Perm teas :=
  fun p teas sc =>
    ⟨pySortDesc_filter (score_tea (rankedNeeds p)) sc teas,
     pySortDesc_pairwise (score_tea (rankedNeeds p)) teas,
     pySortDesc_perm (score_tea (rankedNeeds p)) teas⟩

/-- Claim C6: the ranker returns exactly `min 3 |catalog|` keys — at most
3, fewer than 3 only when the catalog has fewer than 3 items, the empty
list for the empty catalog — and every returned key is the key of a
catalog item. -/
theorem ranker_top3_sound :
    ∀ (p : Profile) (teas : List Tea),
      (topTeaKeys (rankedNeeds p) teas).length = min 3 teas.length
      ∧ (∀ k ∈ topTeaKeys (rankedNeeds p) teas, ∃ t ∈ teas, t.key = k)
      ∧ topTeaKeys (rankedNeeds p) [] = [] := by
  intro p teas
  refine ⟨?_, ?_, rfl⟩
  · unfold topTeaKeys
    dsimp only
    by_cases h : rankTeas (rankedNeeds p) teas = []
    · have h0 : teas.length = 0 := by
        rw [← rankTeas_length (rankedNeeds p) teas, h]
        rfl
      simp [h, h0]
    · have hne : (rankTeas (rankedNeeds p) teas).isEmpty = false := by
        simpa [List.isEmpty_iff] using h
      simp [hne, List.length_take, rankTeas_length]
  · intro k hk
    unfold topTeaKeys at hk
    dsimp only at hk
    by_cases h : rankTeas (rankedNeeds p) teas = []
    · simp [h] at hk
    · have hne : (rankTeas (rankedNeeds p) teas).isEmpty = false := by
        simpa [List.isEmpty_iff] using h
      rw [hne] at hk
      simp only [Bool.false_eq_true, if_false] at hk
      rcases List.mem_map.mp hk with ⟨t, ht, rfl⟩
      have ht' : t ∈ rankTeas (rankedNeeds p) teas :=
        (List.take_sublist 3 _).subset ht
      exact ⟨t, (pySortDesc_perm _ teas).mem_iff.mp ht', rfl⟩

/-- Witness for Claim C6's theorem: the key "lemonbalm" returned against
the seed catalog names a seed-catalog item. -/
theorem ranker_top3_sound_w :
    ("lemonbalm" ∈ topTeaKeys (rankedNeeds initProfile) seedCatalog)
    ∧ (∃ t ∈ seedCatalog, t.key = "lemonbalm") :=
  ⟨by decide,
   (ranker_top3_sound initProfile seedCatalog).2.1 "lemonbalm" (by decide)⟩

/-- Claim C7: the Needs Profiler is order-independent — permuting the event
sequence leaves the resulting needs vector (including whether profiling
fails) unchanged. -/
theorem profiler_order_independent :
    ∀ (events events' : List Interaction), events.Perm events' →
      needsProfile events = needsProfile events' :=
  fun _ _ h => runProfiler_perm h initProfile

/-- Witness for Claim C7's theorem on a concrete two-event swap. -/
theorem profiler_order_independent_w :
    needsProfile [⟨"j", "maze_complete", []⟩,
                  ⟨"j", "scene_choice", [("scene", Value.vStr "night")]⟩]
      = needsProfile [⟨"j", "scene_choice", [("scene", Value.vStr "night")]⟩,
                      ⟨"j", "maze_complete", []⟩] :=
  profiler_order_independent _ _ (List.Perm.swap _ _ [])

/-- Claim C8: consent gates event association at the boundary —
`start_journey` rejects a journey without consent, `record_interaction`
rejects exactly the empty `journey_id`, and both operations preserve the
invariant that every stored journey carries consent (which holds of the
empty store), so no Interaction Event is ever associated with a stored
journey lacking consent. -/
theorem consent_gating :
    (∀ (s : Store) (newId : String) (j : Journey), j.consent = false →
        start_journey s newId j = Except.error "Consent required to proceed.")
    ∧ (∀ (s : Store) (i : Interaction),
        (∃ e, record_interaction s i = Except.error e) ↔ i.journey_id = "")
    ∧ (∀ (s s' : Store) (newId rid : String) (j : Journey),
        consentInv s → start_journey s newId j = Except.ok (s', rid) →
        consentInv s')
    ∧ (∀ (s s' : Store) (i : Interaction),
        consentInv s → record_interaction s i = Except.ok s' →
        consentInv s' ∧ s'.journeys = s.journeys)
    ∧ consentInv emptyStore := by
  refine ⟨?_, ?_, ?_, ?_, ?_⟩
  · intro s nid j hc
    simp [start_journey, hc]
  · intro s i
    unfold record_interaction
    by_cases h : i.journey_id = "" <;> simp [h]
  · intro s s' nid rid j hinv hok
    unfold start_journey at hok
    by_cases hc : j.consent
    · simp only [hc, Bool.not_true, Bool.false_eq_true, if_false] at hok
      injection hok with hok
      injection hok with hs hrid
      subst hs
      intro e he
      rcases List.mem_append.mp he with h1 | h1
      · exact hinv e h1
      · rcases List.mem_singleton.mp h1 with rfl
        exact hc
    · simp [hc] at hok
  · intro s s' i hinv hok
    unfold record_interaction at hok
    by_cases h : i.journey_id = ""
    · simp [h] at hok
    · simp only [h, if_false] at hok
      injection hok with hok
      subst hok
      exact ⟨hinv, rfl⟩
  · intro e he
    cases he

/-- Witness for Claim C8's theorem at concrete inputs: a consent-less
journey is rejected, an interaction with empty `journey_id` is rejected,
and the empty store satisfies the consent invariant. -/
theorem consent_gating_w :
    start_journey emptyStore "j1" ⟨false, some "Auri", none⟩
        = Except.error "Consent required to proceed."
    ∧ (∃ e, record_interaction emptyStore ⟨"", "maze_complete", []⟩
          = Except.error e)
    ∧ consentInv emptyStore :=
  ⟨consent_gating.1 emptyStore "j1" ⟨false, some "Auri", none⟩ rfl,
   (consent_gating.2.1 emptyStore ⟨"", "maze_complete", []⟩).mpr rfl,
   consent_gating.2.2.2.2⟩

/-- Claim C9: the end-to-end example — events clouds-metaphor then slow
breath give profile (calm 2, focus 0, uplift 0, sleep 1) with primary need
calm; against the seed catalog, the calming-and-sleep teas chamomile and
lavender both score 4 (3 primary + 1 sleep secondary) and tie at the top
in catalog retrieval order, while peppermint scores 0. -/
theorem end_to_end_example :
    needsProfile [⟨"j", "metaphor_pick", [("metaphor", Value.vStr "clouds")]⟩,
                  ⟨"j", "breath_pace", [("pace", Value.vStr "slow")]⟩]
        = some ⟨2, 0, 0, 1⟩
    ∧ (rankedNeeds ⟨2, 0, 0, 1⟩).head? = some ("calm_need", 2)
    ∧ score_tea (rankedNeeds ⟨2, 0, 0, 1⟩) chamomile = 4
    ∧ score_tea (rankedNeeds ⟨2, 0, 0, 1⟩) lavender = 4
    ∧ score_tea (rankedNeeds ⟨2, 0, 0, 1⟩) peppermint = 0
    ∧ rankTeas (rankedNeeds ⟨2, 0, 0, 1⟩) seedCatalog
        = [chamomile, lavender, lemonbalm, peppermint] := by
  decide

/-- Claim C10: against any needs vector, every tea's score is an integer
between 0 and 5 — at most one +3 primary bonus (the four primary checks
all test the single top-ranked need) plus at most two +1 secondary
bonuses — and the lowest-ranked of the four needs contributes nothing: the
score depends only on the top three ranked needs. -/
theorem score_bounds :
    ∀ (p : Profile) (tea : Tea),
      0 ≤ score_tea (rankedNeeds p) tea
      ∧ score_tea (rankedNeeds p) tea ≤ 5
      ∧ score_tea (rankedNeeds p) tea = score_tea ((rankedNeeds p).take 3) tea :=
  fun p tea =>
    ⟨(score_tea_bounds (rankedNeeds p) tea).1,
     (score_tea_bounds (rankedNeeds p) tea).2,
     score_tea_take3 (rankedNeeds p) tea⟩

end TeeSeele
